import Mathlib

/-!
Shallow embedding of `src/Gemini_calc.py` (repository `DevlopRishi/Gemini-calc`).

The program is a desktop calculator that delegates arithmetic to a remote
text-generation endpoint and persists the user's API credential on disk,
encrypted with a `cryptography.fernet.Fernet` key.  The embedding models:

* the filesystem as a partial map from paths to file bytes;
* `APIKeyManager` (`_get_or_create_encryption_key`, `save_api_key`,
  `load_api_key`, `delete_api_key`) as explicit state-passing functions,
  with I/O failures (OSError from `open`/read/write) driven by an
  `IOEnv` oracle saying which paths are readable/writable;
* the Fernet cipher abstractly, as a `Cipher` record together with the
  correctness and tamper-detection properties of authenticated encryption
  (the real AES/HMAC construction is a vendored library, not repository
  code); a concrete `toyCipher` satisfying both properties instantiates
  the abstract theorems;
* `CalculatorAPI.call_api` split into the outbound request value it
  constructs (`call_api_request`) and its interpretation of the
  transport's answer (`call_api`), with Python `float()` parsing of the
  response text modelled by `pyFloat?`;
* `CalculatorApp.calculate` as a function from the widget state to an
  outcome recording the new state, the error dialogs shown, and the
  outbound network requests made.
-/

namespace GeminiCalc

/-- File contents are byte sequences; bytes are modelled as natural numbers. -/
abbrev Bytes := List Nat

/-- Home-relative path of the credential file: `self.key_file =
Path.home() / '.calculator_api_key'` (source line 13).  Despite its name in
the source, this file stores the encrypted API credential. -/
def credFilePath : String := ".calculator_api_key"

/-- Home-relative path of the encryption-key file:
`Path.home() / '.calculator_key'` (source line 18). -/
def keyFilePath : String := ".calculator_key"

/-- The filesystem: maps a path to the bytes stored there, `none` if the
file is absent. -/
abbrev FS := String → Option Bytes

/-- Writing a file replaces its previous content in full. -/
def FS.write (fs : FS) (p : String) (v : Bytes) : FS :=
  fun q => if q = p then some v else fs q

/-- Removing a file (`Path.unlink`). -/
def FS.erase (fs : FS) (p : String) : FS :=
  fun q => if q = p then none else fs q

/-- Models `Path.exists()`. -/
def FS.existsAt (fs : FS) (p : String) : Bool := (fs p).isSome

/-- I/O environment: which paths the process can currently read and write.
`open(p, 'rb')`/`read` raises OSError when `readable p` is false, and
`open(p, 'wb')`/`write` raises OSError when `writable p` is false. -/
structure IOEnv where
  readable : String → Bool
  writable : String → Bool

/-- A fully functional filesystem: every path readable and writable. -/
def allOk : IOEnv := ⟨fun _ => true, fun _ => true⟩

/-- A broken filesystem: nothing readable, nothing writable. -/
def badEnv : IOEnv := ⟨fun _ => false, fun _ => false⟩

/-- Python exceptions raised inside the storage layer: `OSError` from file
I/O (the spec's `StorageError`), `cryptography.fernet.InvalidToken` from
`Fernet.decrypt`, `UnicodeDecodeError` from `bytes.decode`. -/
inductive PyErr where
  | osError (path : String)
  | invalidToken
  | unicodeDecodeError
deriving DecidableEq

/-- Decoding one byte of `strEncode` output back to a character; `none` on
a value that is not a valid scalar, modelling a `bytes.decode` failure. -/
def decodeChar? (n : Nat) : Option Char :=
  if (Char.ofNat n).toNat = n then some (Char.ofNat n) else none

/-- Models Python `api_key.encode()` (source line 29): an injective byte
encoding of the string.  The exact bytes produced (UTF-8 in CPython, one
value per scalar here) are irrelevant to every claim; only the exact
round-trip with `strDecode` below and the opacity of the result matter. -/
def strEncode (s : String) : Bytes := s.data.map Char.toNat

/-- Decoding helper for `strDecode`: all-or-nothing decoding of a byte
sequence. -/
def decodeBytes : Bytes → Option (List Char)
  | [] => some []
  | n :: rest =>
    match decodeChar? n, decodeBytes rest with
    | some c, some cs => some (c :: cs)
    | _, _ => none

/-- Models Python `bytes.decode()` (source line 39): `none` models the
`UnicodeDecodeError` raised on bytes outside the encoding's range. -/
def strDecode (bs : Bytes) : Option String :=
  (decodeBytes bs).map fun cs => ⟨cs⟩

/-- Abstract model of the `cryptography.fernet.Fernet` authenticated
cipher.  `encrypt key nonce plaintext` models `Fernet(key).encrypt(pt)`,
with `nonce` standing for the random IV and timestamp Fernet draws for
each call; `decrypt key ct` models `Fernet(key).decrypt(ct)`, with `none`
modelling the `InvalidToken` exception. -/
structure Cipher where
  encrypt : Bytes → Bytes → Bytes → Bytes
  decrypt : Bytes → Bytes → Option Bytes

/-- Correctness of the cipher: decryption under the same key inverts
encryption.  Fernet guarantees this. -/
def Cipher.Correct (C : Cipher) : Prop :=
  ∀ key nonce pt, C.decrypt key (C.encrypt key nonce pt) = some pt

/-- Tamper detection: replacing any single byte of a genuine ciphertext by
a different value makes decryption under the same key fail.  This is the
authenticated-encryption guarantee of Fernet (HMAC over the whole token). -/
def Cipher.TamperDetecting (C : Cipher) : Prop :=
  ∀ key nonce pt i b, i < (C.encrypt key nonce pt).length →
    b ≠ (C.encrypt key nonce pt).getD i 0 →
    C.decrypt key ((C.encrypt key nonce pt).set i b) = none

/-- A concrete cipher satisfying `Correct` and `TamperDetecting`, used to
instantiate the abstract theorems: the ciphertext is the plaintext
prefixed with a key-dependent checksum, and decryption recomputes and
checks the checksum. -/
def toyCipher : Cipher where
  encrypt := fun key _nonce pt => (pt.sum + key.sum) :: pt
  decrypt := fun key ct =>
    match ct with
    | [] => none
    | tag :: body => if tag = body.sum + key.sum then some body else none

/-- The in-memory state of `APIKeyManager` after `__init__` (source lines
11-15): the Fernet key loaded or created by
`_get_or_create_encryption_key`.  (`self.fernet = Fernet(key)` carries no
further state.) -/
structure APIKeyManager where
  keyEncryptionKey : Bytes
deriving DecidableEq

/-- Models `APIKeyManager._get_or_create_encryption_key` (source lines
17-25).  `freshKey` stands for the output of `Fernet.generate_key()`.  If
the key file is absent, the fresh key is written there and returned; the
write raises OSError when the location is unwritable.  If the key file
exists, its raw bytes are read and returned; the read raises OSError when
the location is unreadable.  Neither branch is wrapped in a handler, so
errors propagate to the caller. -/
def get_or_create_encryption_key (env : IOEnv) (freshKey : Bytes) (fs : FS) :
    Except PyErr (Bytes × FS) :=
  match fs keyFilePath with
  | none =>
    if env.writable keyFilePath then
      .ok (freshKey, fs.write keyFilePath freshKey)
    else
      .error (.osError keyFilePath)
  | some key =>
    if env.readable keyFilePath then
      .ok (key, fs)
    else
      .error (.osError keyFilePath)

/-- Models `APIKeyManager.save_api_key` (source lines 27-31): encrypt the
encoded credential under the manager's key and write the ciphertext to the
credential file, replacing any prior content.  No handler: an unwritable
location raises OSError to the caller. -/
def save_api_key (C : Cipher) (env : IOEnv) (m : APIKeyManager)
    (nonce : Bytes) (api_key : String) (fs : FS) : Except PyErr FS :=
  let encrypted_key := C.encrypt m.keyEncryptionKey nonce (strEncode api_key)
  if env.writable credFilePath then
    .ok (fs.write credFilePath encrypted_key)
  else
    .error (.osError credFilePath)

/-- The body of the `try` block of `APIKeyManager.load_api_key` (source
lines 35-40): if the credential file exists, read it (OSError when
unreadable), decrypt it (`InvalidToken` on failure) and decode the
plaintext bytes (`UnicodeDecodeError` on failure); if it does not exist,
return `None`. -/
def load_api_key_body (C : Cipher) (env : IOEnv) (m : APIKeyManager)
    (fs : FS) : Except PyErr (Option String) :=
  match fs credFilePath with
  | none => .ok none
  | some encrypted_key =>
    if env.readable credFilePath then
      match C.decrypt m.keyEncryptionKey encrypted_key with
      | none => .error .invalidToken
      | some pt =>
        match strDecode pt with
        | none => .error .unicodeDecodeError
        | some s => .ok (some s)
    else
      .error (.osError credFilePath)

/-- Models `APIKeyManager.load_api_key` (source lines 33-42): the whole
body runs under `try ... except Exception: return None`, so every failure
of the body — missing file, unreadable file, `InvalidToken`,
`UnicodeDecodeError` — is normalized to `None`.  The `Except` layer is
kept in the type to state that no error escapes this function. -/
def load_api_key (C : Cipher) (env : IOEnv) (m : APIKeyManager) (fs : FS) :
    Except PyErr (Option String) :=
  match load_api_key_body C env m fs with
  | .ok r => .ok r
  | .error _ => .ok none

/-- Models `APIKeyManager.delete_api_key` (source lines 44-47): unlink the
credential file if it exists, do nothing otherwise. -/
def delete_api_key (fs : FS) : FS :=
  if fs.existsAt credFilePath then fs.erase credFilePath else fs

/-- Value of a digit string, most significant first. -/
def digitsVal (ds : List Char) : Nat :=
  ds.foldl (fun a c => 10 * a + (c.toNat - 48)) 0

/-- Mantissa value of an integer part and a fraction part. -/
def mantissaVal (intPart fracPart : List Char) : ℚ :=
  (digitsVal intPart : ℚ) + (digitsVal fracPart : ℚ) / 10 ^ fracPart.length

/-- Exponent-suffix parser for `pyFloat?`: applies `10 ^ digits` (with the
given sign) to the mantissa, failing on an empty or non-digit exponent. -/
def expVal (m : ℚ) (neg : Bool) (ds : List Char) : Option ℚ :=
  if ds.isEmpty ∨ ¬ ds.all Char.isDigit then none
  else some (if neg then m / 10 ^ digitsVal ds else m * 10 ^ digitsVal ds)

/-- Parses an optional `e`/`E` exponent suffix after the mantissa; the
suffix must consume the whole remainder of the string. -/
def parseExpPart (m : ℚ) (cs : List Char) : Option ℚ :=
  match cs with
  | [] => some m
  | c :: rest =>
    if c = 'e' ∨ c = 'E' then
      match rest with
      | '+' :: ds => expVal m false ds
      | '-' :: ds => expVal m true ds
      | ds => expVal m false ds
    else none

/-- Parses an unsigned Python float literal: `digits [. digits] [exp]` or
`. digits [exp]`. -/
def parseUnsigned (cs : List Char) : Option ℚ :=
  let intPart := cs.takeWhile Char.isDigit
  let rest := cs.dropWhile Char.isDigit
  match rest with
  | '.' :: rest2 =>
    let fracPart := rest2.takeWhile Char.isDigit
    let rest3 := rest2.dropWhile Char.isDigit
    if intPart.isEmpty ∧ fracPart.isEmpty then none
    else parseExpPart (mantissaVal intPart fracPart) rest3
  | _ =>
    if intPart.isEmpty then none
    else parseExpPart (digitsVal intPart : ℚ) rest

/-- Models Python `float(str)` on decimal literals: optional surrounding
whitespace, an optional sign, then either `digits [. [digits]] [exp]` or
`. digits [exp]` with `exp = (e|E) [sign] digits`; `none` models the
`ValueError` CPython raises otherwise.  CPython additionally accepts
`inf`, `infinity`, `nan`, underscore digit separators and some Unicode
spaces, and returns the nearest binary double rather than the exact
rational; no claim in this development depends on those aspects. -/
def pyFloat? (s : String) : Option ℚ :=
  let cs := ((s.data.dropWhile Char.isWhitespace).reverse.dropWhile
    Char.isWhitespace).reverse
  match cs with
  | '+' :: rest => parseUnsigned rest
  | '-' :: rest => (parseUnsigned rest).map Neg.neg
  | rest => parseUnsigned rest

/-- Models Python `str(float)` on the values the claims evaluate: an
integral float is printed with a trailing `.0` (so `str(6.0)` is `6.0`).
For non-integral or very large magnitudes CPython prints the shortest
decimal that round-trips through the binary double; that refinement is
not modelled and no claim evaluates it — the substring properties proved
below hold for every rendering. -/
def pyFloatStr (q : ℚ) : String :=
  if q.den = 1 then toString q.num ++ ".0" else toString q

/-- Models the Python format expression `f"{result:.2f}"` (source lines
311 and 314) up to rounding mode on ties (CPython rounds half-to-even; no
claim evaluates a tie). -/
def format2f (q : ℚ) : String :=
  let r : ℤ := round (q * 100)
  let sign := if r < 0 then "-" else ""
  let a := r.natAbs
  sign ++ toString (a / 100) ++ "." ++
    (if a % 100 < 10 then "0" else "") ++ toString (a % 100)

/-- The distinct causes wrapped by `call_api`'s blanket handler:
`raise Exception(f"API Error: {status}")` for a non-200 status, the
`ValueError` of `float(text)` for a non-numeric response text, the
`KeyError`/`IndexError` of the field lookups on a malformed body, and the
`requests` transport exceptions. -/
inductive ApiErrCause where
  | apiError (status : Nat)
  | floatParseError (text : String)
  | fieldMissing
  | networkError
deriving DecidableEq

/-- The error `call_api` raises: every cause is re-raised as
`Exception(f"API call failed: {cause}")` by the handler at source lines
187-188, so the cause stays observable in the exception's message. -/
inductive CalcErr where
  | apiCallFailed (cause : ApiErrCause)
deriving DecidableEq

/-- The message text of each cause, as interpolated by `str(e)`.  The
`apiError` text is literal from source line 185; for the other causes
CPython's exact wording is abbreviated (no claim depends on it). -/
def ApiErrCause.message : ApiErrCause → String
  | .apiError status => "API Error: " ++ toString status
  | .floatParseError text => "could not convert string to float: " ++ text
  | .fieldMissing => "missing response field"
  | .networkError => "network error"

/-- Models `str(e)` for the exception `call_api` raises (source line 188). -/
def CalcErr.message : CalcErr → String
  | .apiCallFailed cause => "API call failed: " ++ cause.message

/-- One `{"text": ...}` leaf of the response body. -/
structure ResponsePart where
  text : String
deriving DecidableEq

/-- The `content` object of one candidate. -/
structure ResponseContent where
  parts : List ResponsePart
deriving DecidableEq

/-- One element of the `candidates` array. -/
structure ResponseCandidate where
  content : ResponseContent
deriving DecidableEq

/-- The parsed JSON body of a response (`response.json()`), in the shape
`call_api` reads: `{"candidates": [{"content": {"parts": [{"text": ...}]}}]}`. -/
structure GeminiBody where
  candidates : List ResponseCandidate
deriving DecidableEq

/-- An HTTP response as `call_api` observes it: status code and parsed
JSON body. -/
structure HTTPResponse where
  status_code : Nat
  body : GeminiBody
deriving DecidableEq

/-- The in-memory state of `CalculatorAPI` (source lines 153-156). -/
structure CalculatorAPI where
  api_key : String
deriving DecidableEq

/-- `self.base_url` (source line 156). -/
def base_url : String :=
  "https://generativelanguage.googleapis.com/v1beta/models/gemini-pro:generateContent"

/-- The outbound HTTP request `call_api` constructs (source lines
161-178): the fixed URL, the `x-goog-api-key` header value, and the single
natural-language text part of the JSON payload. -/
structure GeminiRequest where
  url : String
  api_key_header : String
  instruction : String
deriving DecidableEq

/-- The request value built by `call_api` before posting: the instruction
is the f-string of source line 169 with `str(num1)`/`str(num2)`
interpolated. -/
def call_api_request (api : CalculatorAPI) (num1 num2 : ℚ)
    (operation : String) : GeminiRequest :=
  { url := base_url
    api_key_header := api.api_key
    instruction := "Calculate " ++ pyFloatStr num1 ++ " " ++ operation ++
      " " ++ pyFloatStr num2 ++ " and return only the numerical result" }

/-- Models `CalculatorAPI.call_api` (source lines 158-188).  The source
function both sends the request of `call_api_request` and interprets the
answer; here `transport` stands for the network: `.error` models a
`requests` exception, `.ok resp` a delivered HTTP response.  On status
200 the first text field of the first candidate is parsed with `float`;
any other status raises `API Error`.  Every failure is re-raised by the
blanket handler as `apiCallFailed` with its cause. -/
def call_api (api : CalculatorAPI) (num1 num2 : ℚ) (operation : String)
    (transport : Except Unit HTTPResponse) : Except CalcErr ℚ :=
  match transport with
  | .error _ => .error (.apiCallFailed .networkError)
  | .ok resp =>
    if resp.status_code = 200 then
      match resp.body.candidates.head? with
      | none => .error (.apiCallFailed .fieldMissing)
      | some cand =>
        match cand.content.parts.head? with
        | none => .error (.apiCallFailed .fieldMissing)
        | some p =>
          match pyFloat? p.text with
          | none => .error (.apiCallFailed (.floatParseError p.text))
          | some q => .ok q
    else .error (.apiCallFailed (.apiError resp.status_code))

/-- The four operation buttons of the UI (source lines 260-261). -/
inductive Operation where
  | add
  | subtract
  | multiply
  | divide
deriving DecidableEq

/-- The operator symbol each button passes to `calculate` (source lines
260-261 and 267). -/
def Operation.symbol : Operation → String
  | .add => "+"
  | .subtract => "-"
  | .multiply => "*"
  | .divide => "/"

/-- The widget state `calculate` reads and writes: the two entry fields,
the result label, the history text lines, and the loading label. -/
structure AppState where
  num1_entry : String
  num2_entry : String
  result_label : String
  history_text : List String
  loading_label : String
deriving DecidableEq

/-- The observable outcome of one `calculate` call: the new widget state,
the error dialogs shown (`messagebox.showerror` texts, in order), and the
outbound network requests attempted. -/
structure CalcOutcome where
  state : AppState
  dialogs : List String
  requests : List GeminiRequest
deriving DecidableEq

/-- One history line: the f-string of source line 314 (without the
trailing newline widget call detail, kept as `\n`). -/
def historyLine (num1 : ℚ) (operation : String) (num2 : ℚ) (result : ℚ) :
    String :=
  pyFloatStr num1 ++ " " ++ operation ++ " " ++ pyFloatStr num2 ++ " = " ++
    format2f result ++ "\n"

/-- Models `CalculatorApp.calculate` (source lines 296-323).  The two
entries are parsed with `float` (a `ValueError` shows the invalid-numbers
dialog); a division with second operand zero shows the divide-by-zero
dialog and returns before any request; otherwise the request is sent and
on success the result label is set and a history line appended, while on
failure the exception message is shown and the state left alone.  The
`finally` clause clears the loading label on every path. -/
def calculate (api : CalculatorAPI) (operation : String)
    (transport : Except Unit HTTPResponse) (st : AppState) : CalcOutcome :=
  match pyFloat? st.num1_entry, pyFloat? st.num2_entry with
  | some num1, some num2 =>
    if operation = "/" ∧ num2 = 0 then
      { state := { st with loading_label := "" }
        dialogs := ["Cannot divide by zero"]
        requests := [] }
    else
      match call_api api num1 num2 operation transport with
      | .ok result =>
        { state := { st with
            result_label := format2f result
            history_text := st.history_text ++
              [historyLine num1 operation num2 result]
            loading_label := "" }
          dialogs := []
          requests := [call_api_request api num1 num2 operation] }
      | .error e =>
        { state := { st with loading_label := "" }
          dialogs := [CalcErr.message e]
          requests := [call_api_request api num1 num2 operation] }
  | _, _ =>
    { state := { st with loading_label := "" }
      dialogs := ["Please enter valid numbers"]
      requests := [] }

/-- Substring containment on strings, used to state what the constructed
instruction contains. -/
def containsSub (needle hay : String) : Prop :=
  ∃ pre post : List Char, pre ++ needle.data ++ post = hay.data

theorem decodeChar_toNat (c : Char) : decodeChar? c.toNat = some c := by
  simp [decodeChar?, Char.ofNat_toNat]

theorem decodeBytes_map_toNat (l : List Char) :
    decodeBytes (l.map Char.toNat) = some l := by
  induction l with
  | nil => rfl
  | cons c t ih => simp [decodeBytes, decodeChar_toNat, ih]

theorem strDecode_strEncode (s : String) : strDecode (strEncode s) = some s := by
  simp [strDecode, strEncode, decodeBytes_map_toNat]

theorem toyCipher_correct : toyCipher.Correct := by
  intro key nonce pt
  simp [toyCipher, Cipher.Correct]

theorem sum_set_ne (p : List Nat) (i : Nat) (b : Nat) (hi : i < p.length)
    (hb : b ≠ p.getD i 0) : (p.set i b).sum ≠ p.sum := by
  induction p generalizing i with
  | nil => simp at hi
  | cons a t ih =>
    cases i with
    | zero =>
      simp only [List.getD, List.get?, Option.getD] at hb
      simp only [List.set, List.sum_cons]
      intro h
      exact hb (Nat.add_right_cancel h)
    | succ j =>
      simp only [List.length_cons, Nat.succ_lt_succ_iff] at hi
      simp only [List.getD_cons_succ] at hb
      simp only [List.set, List.sum_cons]
      intro h
      exact ih j hi hb (Nat.add_left_cancel h)

theorem toyCipher_tamperDetecting : toyCipher.TamperDetecting := by
  intro key nonce pt i b hi hb
  cases i with
  | zero =>
    simp only [toyCipher, List.getD_cons_zero] at hb ⊢
    simp [List.set, hb]
  | succ j =>
    simp only [toyCipher, List.length_cons, Nat.succ_lt_succ_iff] at hi
    simp only [toyCipher, List.getD_cons_succ] at hb
    have hne := sum_set_ne pt j b hi hb
    simp only [toyCipher, List.set]
    have : pt.sum + key.sum ≠ (pt.set j b).sum + key.sum := by
      intro h
      exact hne (Nat.add_right_cancel h.symm)
    simp [this]

/-- Claim C1: for every credential string `s`, `save_api_key s` followed by
`load_api_key` with the same manager (hence the same encryption key), on a
working filesystem and with no intervening modification of the credential
file, returns exactly `some s`.  Holds for every cipher that decrypts its
own encryptions, as Fernet does. -/
theorem round_trip_save_load (C : Cipher) (hC : C.Correct)
    (m : APIKeyManager) (nonce : Bytes) (s : String) (fs fs' : FS)
    (hsave : save_api_key C allOk m nonce s fs = .ok fs') :
    load_api_key C allOk m fs' = .ok (some s) := by
  have hfs' : fs' =
      fs.write credFilePath (C.encrypt m.keyEncryptionKey nonce (strEncode s)) := by
    simp only [save_api_key, allOk, if_pos] at hsave
    exact (Except.ok.inj hsave).symm
  subst hfs'
  simp [load_api_key, load_api_key_body, FS.write, allOk,
    hC m.keyEncryptionKey nonce (strEncode s), strDecode_strEncode]

theorem round_trip_save_load_witness :
    load_api_key toyCipher allOk ⟨[5]⟩
      (FS.write (fun _ => none) credFilePath
        (toyCipher.encrypt [5] [0] (strEncode "secret"))) = .ok (some "secret") :=
  round_trip_save_load toyCipher toyCipher_correct ⟨[5]⟩ [0] "secret"
    (fun _ => none) _ rfl

/-- Claim C2: `load_api_key` returns `none` when the credential file does
not exist; it returns `none` (without raising) whenever decryption of an
existing file fails, whatever the cause; and, for a tamper-detecting
cipher such as Fernet, replacing any single byte of a genuinely encrypted
credential file by a different value makes the next `load_api_key` return
`none` — never an error and never a corrupted string. -/
theorem load_none_on_absent_or_tampered (C : Cipher)
    (hC : C.TamperDetecting) (m : APIKeyManager) :
    (∀ (env : IOEnv) (fs : FS), fs credFilePath = none →
       load_api_key C env m fs = .ok none) ∧
    (∀ (env : IOEnv) (fs : FS) (ct : Bytes), fs credFilePath = some ct →
       C.decrypt m.keyEncryptionKey ct = none →
       load_api_key C env m fs = .ok none) ∧
    (∀ (nonce : Bytes) (s : String) (fs : FS) (i : Nat) (b : Nat),
       i < (C.encrypt m.keyEncryptionKey nonce (strEncode s)).length →
       b ≠ (C.encrypt m.keyEncryptionKey nonce (strEncode s)).getD i 0 →
       load_api_key C allOk m
         (fs.write credFilePath
           ((C.encrypt m.keyEncryptionKey nonce (strEncode s)).set i b)) =
         .ok none) := by
  refine ⟨?_, ?_, ?_⟩
  · intro env fs h
    simp [load_api_key, load_api_key_body, h]
  · intro env fs ct hct hdec
    by_cases hr : env.readable credFilePath
    · simp [load_api_key, load_api_key_body, hct, hr, hdec]
    · simp [load_api_key, load_api_key_body, hct, hr]
  · intro nonce s fs i b hi hb
    have hdec := hC m.keyEncryptionKey nonce (strEncode s) i b hi hb
    simp [load_api_key, load_api_key_body, FS.write, allOk, hdec]

theorem load_none_on_absent_or_tampered_witness :
    load_api_key toyCipher allOk ⟨[5]⟩ (fun _ => none) = .ok none ∧
    load_api_key toyCipher allOk ⟨[5]⟩
      (fun q => if q = credFilePath then some [99] else none) = .ok none ∧
    load_api_key toyCipher allOk ⟨[5]⟩
      (FS.write (fun _ => none) credFilePath
        ((toyCipher.encrypt [5] [0] (strEncode "k")).set 0 0)) = .ok none :=
  ⟨(load_none_on_absent_or_tampered toyCipher toyCipher_tamperDetecting
      ⟨[5]⟩).1 allOk (fun _ => none) rfl,
   (load_none_on_absent_or_tampered toyCipher toyCipher_tamperDetecting
      ⟨[5]⟩).2.1 allOk _ [99] rfl (by decide),
   (load_none_on_absent_or_tampered toyCipher toyCipher_tamperDetecting
      ⟨[5]⟩).2.2 [0] "k" (fun _ => none) 0 0 (by decide) (by decide)⟩

/-- Claim C3: `get_or_create_encryption_key` is idempotent after first
creation.  If the key file exists it returns that file's raw bytes with
the filesystem untouched; if it does not exist it writes the freshly
generated key to the fixed location and returns it; and two sequential
calls (without external file deletion) return byte-identical keys. -/
theorem get_or_create_key_idempotent :
    (∀ (freshKey key : Bytes) (fs : FS), fs keyFilePath = some key →
       get_or_create_encryption_key allOk freshKey fs = .ok (key, fs)) ∧
    (∀ (freshKey : Bytes) (fs : FS), fs keyFilePath = none →
       get_or_create_encryption_key allOk freshKey fs =
         .ok (freshKey, fs.write keyFilePath freshKey)) ∧
    (∀ (fresh1 fresh2 key : Bytes) (fs fs' : FS),
       get_or_create_encryption_key allOk fresh1 fs = .ok (key, fs') →
       get_or_create_encryption_key allOk fresh2 fs' = .ok (key, fs')) := by
  refine ⟨?_, ?_, ?_⟩
  · intro freshKey key fs h
    simp [get_or_create_encryption_key, h, allOk]
  · intro freshKey fs h
    simp [get_or_create_encryption_key, h, allOk]
  · intro fresh1 fresh2 key fs fs' h1
    cases hk : fs keyFilePath with
    | none =>
      simp only [get_or_create_encryption_key, hk, allOk, if_pos,
        Except.ok.injEq, Prod.mk.injEq] at h1
      obtain ⟨hkey, hfs⟩ := h1
      subst hkey; subst hfs
      simp [get_or_create_encryption_key, FS.write, allOk]
    | some k0 =>
      simp only [get_or_create_encryption_key, hk, allOk, if_pos,
        Except.ok.injEq, Prod.mk.injEq] at h1
      obtain ⟨hkey, hfs⟩ := h1
      subst hkey; subst hfs
      simp [get_or_create_encryption_key, hk, allOk]

theorem get_or_create_key_idempotent_witness :
    get_or_create_encryption_key allOk [9]
      (fun q => if q = keyFilePath then some [1, 2] else none) =
      .ok ([1, 2], fun q => if q = keyFilePath then some [1, 2] else none) ∧
    get_or_create_encryption_key allOk [9] (fun _ => none) =
      .ok ([9], FS.write (fun _ => none) keyFilePath [9]) ∧
    get_or_create_encryption_key allOk [8]
      (FS.write (fun _ => none) keyFilePath [9]) =
      .ok ([9], FS.write (fun _ => none) keyFilePath [9]) :=
  ⟨get_or_create_key_idempotent.1 [9] [1, 2] _ (by decide),
   get_or_create_key_idempotent.2.1 [9] (fun _ => none) rfl,
   get_or_create_key_idempotent.2.2 [9] [8] [9] (fun _ => none) _ rfl⟩

/-- Claim C4 as stated is false on the code: with the credential file
present but the filesystem unreadable, `load_api_key` does not surface a
storage error — its blanket `except Exception: return None` swallows the
OSError and returns `.ok none`, indistinguishable from an absent
credential. -/
theorem load_swallows_read_errors :
    badEnv.readable credFilePath = false ∧
    (fun q => if q = credFilePath then some ([0] : Bytes) else none)
      credFilePath = some [0] ∧
    load_api_key toyCipher badEnv ⟨[1]⟩
      (fun q => if q = credFilePath then some [0] else none) = .ok none :=
  ⟨rfl, by simp, by simp [load_api_key, load_api_key_body, badEnv]⟩

/-- Claim C4 amended: when the filesystem is not writable or readable,
`get_or_create_encryption_key` and `save_api_key` surface the storage
error (OSError) to the caller, but `load_api_key` never surfaces any
error — every failure of a load, including a filesystem read error, is
normalized to "no credential". -/
theorem storage_error_surfacing :
    (∀ (env : IOEnv) (freshKey : Bytes) (fs : FS),
       fs keyFilePath = none → env.writable keyFilePath = false →
       get_or_create_encryption_key env freshKey fs =
         .error (.osError keyFilePath)) ∧
    (∀ (env : IOEnv) (freshKey key : Bytes) (fs : FS),
       fs keyFilePath = some key → env.readable keyFilePath = false →
       get_or_create_encryption_key env freshKey fs =
         .error (.osError keyFilePath)) ∧
    (∀ (C : Cipher) (env : IOEnv) (m : APIKeyManager) (nonce : Bytes)
       (s : String) (fs : FS), env.writable credFilePath = false →
       save_api_key C env m nonce s fs = .error (.osError credFilePath)) ∧
    (∀ (C : Cipher) (env : IOEnv) (m : APIKeyManager) (fs : FS),
       ∃ r, load_api_key C env m fs = .ok r) := by
  refine ⟨?_, ?_, ?_, ?_⟩
  · intro env freshKey fs habs hw
    simp [get_or_create_encryption_key, habs, hw]
  · intro env freshKey key fs hsome hr
    simp [get_or_create_encryption_key, hsome, hr]
  · intro C env m nonce s fs hw
    simp [save_api_key, hw]
  · intro C env m fs
    cases h : load_api_key_body C env m fs with
    | ok r => exact ⟨r, by simp [load_api_key, h]⟩
    | error e => exact ⟨none, by simp [load_api_key, h]⟩

theorem storage_error_surfacing_witness :
    get_or_create_encryption_key badEnv [9] (fun _ => none) =
      .error (.osError keyFilePath) ∧
    get_or_create_encryption_key badEnv [9]
      (fun q => if q = keyFilePath then some [1] else none) =
      .error (.osError keyFilePath) ∧
    save_api_key toyCipher badEnv ⟨[5]⟩ [0] "secret" (fun _ => none) =
      .error (.osError credFilePath) ∧
    ∃ r, load_api_key toyCipher badEnv ⟨[5]⟩ (fun _ => none) = .ok r :=
  ⟨storage_error_surfacing.1 badEnv [9] (fun _ => none) rfl rfl,
   storage_error_surfacing.2.1 badEnv [9] [1] _ (by simp) rfl,
   storage_error_surfacing.2.2.1 toyCipher badEnv ⟨[5]⟩ [0] "secret"
     (fun _ => none) rfl,
   storage_error_surfacing.2.2.2 toyCipher badEnv ⟨[5]⟩ (fun _ => none)⟩

/-- Claim C5: for every delivered response with HTTP status 200 whose
first candidate's first text field is not a valid number, `call_api` fails
with the float-parse error carrying that text — an error distinct from
every HTTP-status error and never a numeric result.  (In the source every
failure is re-raised as `Exception("API call failed: ...")`; the causes
remain distinct in the message, which the embedding records as the
`ApiErrCause` constructor.) -/
theorem parse_failure_is_error (api : CalculatorAPI) (num1 num2 : ℚ)
    (operation : String) (resp : HTTPResponse) (cand : ResponseCandidate)
    (p : ResponsePart) (hst : resp.status_code = 200)
    (hcand : resp.body.candidates.head? = some cand)
    (hpart : cand.content.parts.head? = some p)
    (hparse : pyFloat? p.text = none) :
    call_api api num1 num2 operation (.ok resp) =
      .error (.apiCallFailed (.floatParseError p.text)) ∧
    (∀ q : ℚ, call_api api num1 num2 operation (.ok resp) ≠ .ok q) ∧
    (∀ status : Nat, call_api api num1 num2 operation (.ok resp) ≠
      .error (.apiCallFailed (.apiError status))) := by
  have hmain : call_api api num1 num2 operation (.ok resp) =
      .error (.apiCallFailed (.floatParseError p.text)) := by
    simp [call_api, hst, hcand, hpart, hparse]
  refine ⟨hmain, ?_, ?_⟩
  · intro q h
    rw [hmain] at h
    exact Except.noConfusion h
  · intro status h
    rw [hmain] at h
    simp at h

theorem parse_failure_is_error_witness :
    call_api ⟨"cred"⟩ 6 3 "/"
      (.ok ⟨200, ⟨[⟨⟨[⟨"approximately four"⟩]⟩⟩]⟩⟩) =
      .error (.apiCallFailed (.floatParseError "approximately four")) ∧
    call_api ⟨"cred"⟩ 6 3 "/"
      (.ok ⟨200, ⟨[⟨⟨[⟨"approximately four"⟩]⟩⟩]⟩⟩) ≠ .ok 4 ∧
    call_api ⟨"cred"⟩ 6 3 "/"
      (.ok ⟨200, ⟨[⟨⟨[⟨"approximately four"⟩]⟩⟩]⟩⟩) ≠
      .error (.apiCallFailed (.apiError 500)) :=
  ⟨(parse_failure_is_error ⟨"cred"⟩ 6 3 "/"
      ⟨200, ⟨[⟨⟨[⟨"approximately four"⟩]⟩⟩]⟩⟩ ⟨⟨[⟨"approximately four"⟩]⟩⟩
      ⟨"approximately four"⟩ rfl rfl rfl (by decide)).1,
   (parse_failure_is_error ⟨"cred"⟩ 6 3 "/"
      ⟨200, ⟨[⟨⟨[⟨"approximately four"⟩]⟩⟩]⟩⟩ ⟨⟨[⟨"approximately four"⟩]⟩⟩
      ⟨"approximately four"⟩ rfl rfl rfl (by decide)).2.1 4,
   (parse_failure_is_error ⟨"cred"⟩ 6 3 "/"
      ⟨200, ⟨[⟨⟨[⟨"approximately four"⟩]⟩⟩]⟩⟩ ⟨⟨[⟨"approximately four"⟩]⟩⟩
      ⟨"approximately four"⟩ rfl rfl rfl (by decide)).2.2 500⟩

/-- Claim C6: when the second entry parses to zero and the operator is the
divide button's symbol, `calculate` rejects the request before any network
call is made — the outcome records zero outbound requests (the
divide-by-zero dialog, or the invalid-numbers dialog when the first entry
does not parse, is shown instead). -/
theorem divide_by_zero_no_request (api : CalculatorAPI)
    (transport : Except Unit HTTPResponse) (st : AppState)
    (h2 : pyFloat? st.num2_entry = some 0) :
    (calculate api Operation.divide.symbol transport st).requests = [] := by
  cases h1 : pyFloat? st.num1_entry with
  | none => simp [calculate, h1, h2]
  | some num1 => simp [calculate, h1, h2, Operation.symbol]

theorem divide_by_zero_no_request_witness :
    (calculate ⟨"cred"⟩ Operation.divide.symbol
      (.ok ⟨200, ⟨[⟨⟨[⟨"1"⟩]⟩⟩]⟩⟩)
      ⟨"6", "0", "Result will appear here", [], ""⟩).requests = [] :=
  divide_by_zero_no_request ⟨"cred"⟩ (.ok ⟨200, ⟨[⟨⟨[⟨"1"⟩]⟩⟩]⟩⟩)
    ⟨"6", "0", "Result will appear here", [], ""⟩ (by decide)

theorem containsSub_parts (pre mid post hay : String)
    (h : pre.data ++ mid.data ++ post.data = hay.data) : containsSub mid hay :=
  ⟨pre.data, post.data, h⟩

/-- Claim C7: for every pair of operands and every operation button,
`call_api` builds a natural-language instruction that contains the
rendered operand values and the button's operator symbol, and asks for
only the numerical result; in particular the instruction built for
operands 6 and 3 under the divide button contains `6`, `3` and `/`. -/
theorem instruction_contains_operands :
    (∀ (api : CalculatorAPI) (num1 num2 : ℚ) (op : Operation),
       containsSub (pyFloatStr num1)
         (call_api_request api num1 num2 op.symbol).instruction ∧
       containsSub (pyFloatStr num2)
         (call_api_request api num1 num2 op.symbol).instruction ∧
       containsSub op.symbol
         (call_api_request api num1 num2 op.symbol).instruction ∧
       containsSub "return only the numerical result"
         (call_api_request api num1 num2 op.symbol).instruction) ∧
    (containsSub "6"
       (call_api_request ⟨"cred"⟩ 6 3 Operation.divide.symbol).instruction ∧
     containsSub "3"
       (call_api_request ⟨"cred"⟩ 6 3 Operation.divide.symbol).instruction ∧
     containsSub "/"
       (call_api_request ⟨"cred"⟩ 6 3 Operation.divide.symbol).instruction) := by
  have hsplit : (" and return only the numerical result" : String).data =
      (" and " : String).data ++
        ("return only the numerical result" : String).data := rfl
  refine ⟨?_, ?_, ?_, ?_⟩
  · intro api num1 num2 op
    refine ⟨?_, ?_, ?_, ?_⟩
    · refine containsSub_parts "Calculate " _
        (" " ++ op.symbol ++ " " ++ pyFloatStr num2 ++
          " and return only the numerical result") _ ?_
      simp [call_api_request, String.data_append]
    · refine containsSub_parts ("Calculate " ++ pyFloatStr num1 ++ " " ++
        op.symbol ++ " ") _ " and return only the numerical result" _ ?_
      simp [call_api_request, String.data_append]
    · refine containsSub_parts ("Calculate " ++ pyFloatStr num1 ++ " ") _
        (" " ++ pyFloatStr num2 ++ " and return only the numerical result") _ ?_
      simp [call_api_request, String.data_append]
    · refine containsSub_parts ("Calculate " ++ pyFloatStr num1 ++ " " ++
        op.symbol ++ " " ++ pyFloatStr num2 ++ " and ") _ "" _ ?_
      simp [call_api_request, String.data_append, hsplit]
  · exact ⟨"Calculate ".data,
      ".0 / 3.0 and return only the numerical result".data, by decide⟩
  · exact ⟨"Calculate 6.0 / ".data,
      ".0 and return only the numerical result".data, by decide⟩
  · exact ⟨"Calculate 6.0 ".data,
      " 3.0 and return only the numerical result".data, by decide⟩

/-- Claim C8: `delete_api_key` leaves the filesystem unchanged (and does
not raise) when the credential file is absent, and in every case leaves no
credential file behind; `load_api_key` on a fresh profile with no
credential file returns `none`. -/
theorem delete_and_absence_semantics :
    (∀ fs : FS, fs credFilePath = none → delete_api_key fs = fs) ∧
    (∀ fs : FS, delete_api_key fs credFilePath = none) ∧
    (∀ (C : Cipher) (env : IOEnv) (m : APIKeyManager) (fs : FS),
       fs credFilePath = none → load_api_key C env m fs = .ok none) := by
  refine ⟨?_, ?_, ?_⟩
  · intro fs h
    simp [delete_api_key, FS.existsAt, h]
  · intro fs
    cases h : fs credFilePath with
    | none => simp [delete_api_key, FS.existsAt, h]
    | some v => simp [delete_api_key, FS.existsAt, FS.erase, h]
  · intro C env m fs h
    simp [load_api_key, load_api_key_body, h]

theorem delete_and_absence_semantics_witness :
    delete_api_key (fun _ => none) = (fun _ => none) ∧
    delete_api_key (FS.write (fun _ => none) credFilePath [1]) credFilePath =
      none ∧
    load_api_key toyCipher allOk ⟨[7]⟩ (fun _ => none) = .ok none :=
  ⟨delete_and_absence_semantics.1 (fun _ => none) rfl,
   delete_and_absence_semantics.2.1 (FS.write (fun _ => none) credFilePath [1]),
   delete_and_absence_semantics.2.2 toyCipher allOk ⟨[7]⟩ (fun _ => none) rfl⟩

/-- Claim C9: whenever `call_api` fails — transport failure, non-200
status, or parse failure — `calculate` leaves the calculation state
unchanged: the history gets no entry and the result label keeps its old
text.  (The transient loading label is cleared by the `finally` clause on
every path, and the error message is shown in a dialog.) -/
theorem failure_leaves_state_unchanged (api : CalculatorAPI)
    (operation : String) (transport : Except Unit HTTPResponse)
    (st : AppState) (num1 num2 : ℚ) (e : CalcErr)
    (h1 : pyFloat? st.num1_entry = some num1)
    (h2 : pyFloat? st.num2_entry = some num2)
    (hfail : call_api api num1 num2 operation transport = .error e) :
    (calculate api operation transport st).state.history_text =
      st.history_text ∧
    (calculate api operation transport st).state.result_label =
      st.result_label := by
  by_cases hguard : operation = "/" ∧ num2 = 0
  · simp [calculate, h1, h2, hguard]
  · simp [calculate, h1, h2, hguard, hfail]

theorem failure_leaves_state_unchanged_witness :
    (calculate ⟨"cred"⟩ "/" (.error ())
      ⟨"6", "3", "Result will appear here", ["old line"], ""⟩).state.history_text
      = ["old line"] ∧
    (calculate ⟨"cred"⟩ "/" (.error ())
      ⟨"6", "3", "Result will appear here", ["old line"], ""⟩).state.result_label
      = "Result will appear here" :=
  failure_leaves_state_unchanged ⟨"cred"⟩ "/" (.error ())
    ⟨"6", "3", "Result will appear here", ["old line"], ""⟩ 6 3
    (.apiCallFailed .networkError) (by decide) (by decide) rfl

/-- Claim C10: the credential operations never touch the encryption-key
file: the credential path differs from the key path, and `save_api_key`
and `delete_api_key` change no path other than the credential file — in
particular the key file's bytes are preserved.  (`load_api_key` performs
no writes at all: its embedding consumes the filesystem without producing
one, mirroring the read-only source.)  The in-memory key is a field of the
immutable manager value, which none of the three operations rebuilds. -/
theorem credential_ops_frame :
    credFilePath ≠ keyFilePath ∧
    (∀ (C : Cipher) (env : IOEnv) (m : APIKeyManager) (nonce : Bytes)
       (s : String) (fs fs' : FS),
       save_api_key C env m nonce s fs = .ok fs' →
       ∀ p, p ≠ credFilePath → fs' p = fs p) ∧
    (∀ (fs : FS) (p : String), p ≠ credFilePath →
       delete_api_key fs p = fs p) := by
  refine ⟨by decide, ?_, ?_⟩
  · intro C env m nonce s fs fs' hsave p hp
    by_cases hw : env.writable credFilePath
    · simp only [save_api_key, hw, if_pos] at hsave
      rw [← Except.ok.inj hsave]
      simp [FS.write, hp]
    · simp [save_api_key, hw] at hsave
  · intro fs p hp
    cases h : fs.existsAt credFilePath with
    | false => simp [delete_api_key, h]
    | true => simp [delete_api_key, h, FS.erase, hp]

theorem credential_ops_frame_witness :
    credFilePath ≠ keyFilePath ∧
    FS.write (fun q => if q = keyFilePath then some [5] else none)
      credFilePath (toyCipher.encrypt [5] [0] (strEncode "secret"))
      keyFilePath =
      (fun q => if q = keyFilePath then some ([5] : Bytes) else none)
        keyFilePath ∧
    delete_api_key (fun q => if q = keyFilePath then some [5] else none)
      keyFilePath =
      (fun q => if q = keyFilePath then some ([5] : Bytes) else none)
        keyFilePath :=
  ⟨credential_ops_frame.1,
   credential_ops_frame.2.1 toyCipher allOk ⟨[5]⟩ [0] "secret"
     (fun q => if q = keyFilePath then some [5] else none) _ rfl
     keyFilePath (by decide),
   credential_ops_frame.2.2
     (fun q => if q = keyFilePath then some [5] else none) keyFilePath
     (by decide)⟩

end GeminiCalc
